import Mathlib

/-!
Verification development for the jira-github-integration repository.

The scripts manipulate JSON values fetched from remote services.  JSON
values are modelled by the inductive type `JVal` (numbers as integers:
every numeric field the scripts touch — attachment sizes, release ids —
is integral); Python dictionaries keep insertion order, so objects are
association lists with string keys, as produced by `json.loads`.
Fallible Python code (code that can raise an exception) is modelled with
`Except Unit`; `Except.error ()` stands for an uncaught exception.
Network calls are injected as function parameters (capabilities), since
the scripts' only interaction with the world is request/response.
-/

namespace JiraGitHub

/-- Model of a Python/JSON value as the scripts see it. -/
inductive JVal where
  | null
  | bool (b : Bool)
  | num (n : Int)
  | str (s : String)
  | arr (items : List JVal)
  | obj (fields : List (String × JVal))

mutual
/-- Boolean equality on `JVal` (automatic derivation does not handle the
nested inductive, so it is written by hand). -/
def JVal.beq : JVal → JVal → Bool
  | .null, .null => true
  | .bool a, .bool b => a == b
  | .num a, .num b => a == b
  | .str a, .str b => a == b
  | .arr a, .arr b => JVal.beqList a b
  | .obj a, .obj b => JVal.beqFields a b
  | _, _ => false

def JVal.beqList : List JVal → List JVal → Bool
  | [], [] => true
  | x :: xs, y :: ys => JVal.beq x y && JVal.beqList xs ys
  | _, _ => false

def JVal.beqFields : List (String × JVal) → List (String × JVal) → Bool
  | [], [] => true
  | (k1, v1) :: xs, (k2, v2) :: ys => k1 == k2 && JVal.beq v1 v2 && JVal.beqFields xs ys
  | _, _ => false
end

mutual
theorem JVal.beq_refl : ∀ a : JVal, JVal.beq a a = true
  | .null => rfl
  | .bool b => by simp [JVal.beq]
  | .num n => by simp [JVal.beq]
  | .str s => by simp [JVal.beq]
  | .arr xs => by simpa [JVal.beq] using JVal.beqList_refl xs
  | .obj fs => by simpa [JVal.beq] using JVal.beqFields_refl fs

theorem JVal.beqList_refl : ∀ xs : List JVal, JVal.beqList xs xs = true
  | [] => rfl
  | x :: xs => by simp [JVal.beqList, JVal.beq_refl x, JVal.beqList_refl xs]

theorem JVal.beqFields_refl : ∀ fs : List (String × JVal), JVal.beqFields fs fs = true
  | [] => rfl
  | (k, v) :: rest => by simp [JVal.beqFields, JVal.beq_refl v, JVal.beqFields_refl rest]
end

mutual
theorem JVal.eq_of_beq : ∀ a b : JVal, JVal.beq a b = true → a = b
  | .null, b, h => by cases b <;> first | rfl | simp [JVal.beq] at h
  | .bool a, b, h => by cases b <;> simp_all [JVal.beq]
  | .num a, b, h => by cases b <;> simp_all [JVal.beq]
  | .str a, b, h => by cases b <;> simp_all [JVal.beq]
  | .arr xs, b, h => by
      cases b with
      | arr ys => exact congrArg JVal.arr (JVal.eqList_of_beq xs ys (by simpa [JVal.beq] using h))
      | null => simp [JVal.beq] at h
      | bool b => simp [JVal.beq] at h
      | num n => simp [JVal.beq] at h
      | str s => simp [JVal.beq] at h
      | obj fs => simp [JVal.beq] at h
  | .obj fs, b, h => by
      cases b with
      | obj gs => exact congrArg JVal.obj (JVal.eqFields_of_beq fs gs (by simpa [JVal.beq] using h))
      | null => simp [JVal.beq] at h
      | bool b => simp [JVal.beq] at h
      | num n => simp [JVal.beq] at h
      | str s => simp [JVal.beq] at h
      | arr ys => simp [JVal.beq] at h

theorem JVal.eqList_of_beq : ∀ xs ys : List JVal, JVal.beqList xs ys = true → xs = ys
  | [], [], _ => rfl
  | [], _ :: _, h => by simp [JVal.beqList] at h
  | _ :: _, [], h => by simp [JVal.beqList] at h
  | x :: xs, y :: ys, h => by
      simp only [JVal.beqList, Bool.and_eq_true] at h
      exact congrArg₂ List.cons (JVal.eq_of_beq x y h.1) (JVal.eqList_of_beq xs ys h.2)

theorem JVal.eqFields_of_beq : ∀ fs gs : List (String × JVal), JVal.beqFields fs gs = true → fs = gs
  | [], [], _ => rfl
  | [], _ :: _, h => by simp [JVal.beqFields] at h
  | _ :: _, [], h => by simp [JVal.beqFields] at h
  | (k1, v1) :: xs, (k2, v2) :: ys, h => by
      simp only [JVal.beqFields, Bool.and_eq_true, beq_iff_eq] at h
      obtain ⟨⟨hk, hv⟩, ht⟩ := h
      rw [hk, JVal.eq_of_beq v1 v2 hv, JVal.eqFields_of_beq xs ys ht]
end

instance : DecidableEq JVal := fun a b =>
  decidable_of_iff (JVal.beq a b = true) ⟨JVal.eq_of_beq a b, fun h => h ▸ JVal.beq_refl a⟩

/-- Python truthiness (`bool(v)`) of a modelled value. -/
def pyTruthy : JVal → Bool
  | .null => false
  | .bool b => b
  | .num n => n != 0
  | .str s => s != ""
  | .arr xs => !xs.isEmpty
  | .obj fs => !fs.isEmpty

mutual
/-- Model of Python `repr` on JSON-like values (escape sequences inside
string reprs are not modelled; no claim depends on them). -/
def pyRepr : JVal → String
  | .null => "None"
  | .bool true => "True"
  | .bool false => "False"
  | .num n => toString n
  | .str s => "\x27" ++ s ++ "\x27"
  | .arr xs => "[" ++ String.intercalate ", " (pyReprAll xs) ++ "]"
  | .obj fs => "\x7b" ++ String.intercalate ", " (pyReprFields fs) ++ "\x7d"

def pyReprAll : List JVal → List String
  | [] => []
  | x :: xs => pyRepr x :: pyReprAll xs

def pyReprFields : List (String × JVal) → List String
  | [] => []
  | (k, v) :: rest => ("\x27" ++ k ++ "\x27: " ++ pyRepr v) :: pyReprFields rest
end

/-- Model of Python `str` on JSON-like values. -/
def pyStr : JVal → String
  | .str s => s
  | v => pyRepr v

/-! ### The rich-text (ADF) extractor

`JiraGitHubProcessor._extract_text_from_adf` (process_jira_bug.py:433-452)
and `IssueBodyGenerator._extract_description` (issue_generator.py:117-143)
both close over a list `text_parts` and a recursive closure
`extract_content`; the closure is modelled by `extractContent` below,
returning the sequence of values appended to `text_parts`. -/

/-- The step of `extract_content` that appends `node.get('text', '')`
when `node.get('type') == 'text'` (an absent `type` gives Python `None`,
which is not equal to `'text'`). -/
def typeTextPart (fields : List (String × JVal)) : List JVal :=
  if List.lookup "type" fields = some (JVal.str "text") then
    [(List.lookup "text" fields).getD (JVal.str "")]
  else []

mutual
/-- Model of the recursive closure `extract_content`
(process_jira_bug.py:440-449, issue_generator.py:129-138).
`Except.error ()` models the `TypeError` Python raises when
`node['content']` is not iterable. -/
def extractContent : JVal → Except Unit (List JVal)
  | .obj fields =>
      match contentParts fields with
      | .ok rest => .ok (typeTextPart fields ++ rest)
      | .error e => .error e
  | .arr items => extractAll items
  | .null => .ok []
  | .bool _ => .ok []
  | .num _ => .ok []
  | .str _ => .ok []

/-- First-occurrence scan realising `'content' in node` followed by the
iteration over `node['content']`. -/
def contentParts : List (String × JVal) → Except Unit (List JVal)
  | [] => .ok []
  | (k, v) :: rest =>
      if k = "content" then iterContent v else contentParts rest

/-- `for child in node['content']`: Python iterates a list (its
elements), a string (its characters, none of which are dicts or lists)
or a dict (its string keys); any other value raises `TypeError`. -/
def iterContent : JVal → Except Unit (List JVal)
  | .arr items => extractAll items
  | .str _ => .ok []
  | .obj _ => .ok []
  | .null => .error ()
  | .bool _ => .error ()
  | .num _ => .error ()

def extractAll : List JVal → Except Unit (List JVal)
  | [] => .ok []
  | x :: xs =>
      match extractContent x with
      | .error e => .error e
      | .ok a =>
          match extractAll xs with
          | .error e => .error e
          | .ok b => .ok (a ++ b)
end

/-- Model of `'\n'.join(text_parts)` succeeding: it does exactly when
every collected part is a string (otherwise Python raises `TypeError`). -/
def listAllStrings : List JVal → Option (List String)
  | [] => some []
  | JVal.str s :: xs => (listAllStrings xs).map (s :: ·)
  | _ => none

/-- Model of `JiraGitHubProcessor._extract_text_from_adf`
(process_jira_bug.py:433-452): non-dict inputs are returned via `str`;
for dicts the collected parts are joined with newlines, with the
fallback string when no part was collected. -/
def extractTextFromADF (adf : JVal) : Except Unit String :=
  match adf with
  | .obj fields =>
      match extractContent (.obj fields) with
      | .error e => .error e
      | .ok parts =>
          if parts.isEmpty then .ok "No description provided"
          else
            match listAllStrings parts with
            | some strs => .ok (String.intercalate "\n" strs)
            | none => .error ()
  | v => .ok (pyStr v)

/-- Model of `IssueBodyGenerator._extract_description`
(issue_generator.py:117-143): falsy input gives the fallback, a string
is returned unchanged, a dict is traversed, anything else is `str`-ed. -/
def extractDescription (descData : JVal) : Except Unit String :=
  if pyTruthy descData = false then .ok "No description provided"
  else
    match descData with
    | .str s => .ok s
    | .obj fields =>
        match extractContent (.obj fields) with
        | .error e => .error e
        | .ok parts =>
            if parts.isEmpty then .ok "No description provided"
            else
              match listAllStrings parts with
              | some strs => .ok (String.intercalate "\n" strs)
              | none => .error ()
    | v => .ok (pyStr v)

/-! ### Specification-side description of the traversal

`specTexts` is modelled from the spec's words (§4.1): a pre-order,
left-to-right collection of the `text` payloads of `type == "text"`
nodes (empty string when the payload is absent), recursing into each
`content` sequence in order.  It is the reference against which the
code's traversal is compared. -/

/-- Spec-side payload of a text node: its `text` string, defaulting to
the empty string when absent. -/
def specTypeText (fields : List (String × JVal)) : List String :=
  if List.lookup "type" fields = some (JVal.str "text") then
    [match List.lookup "text" fields with
     | some (JVal.str s) => s
     | _ => ""]
  else []

mutual
/-- Modelled from the spec (§4.1): pre-order, left-to-right collection
of text payloads, recursing into each `content` sequence in order. -/
def specTexts : JVal → List String
  | .obj fields => specTypeText fields ++ specContentTexts fields
  | .arr items => specTextsAll items
  | .null => []
  | .bool _ => []
  | .num _ => []
  | .str _ => []

def specContentTexts : List (String × JVal) → List String
  | [] => []
  | (k, v) :: rest => if k = "content" then specIter v else specContentTexts rest

def specIter : JVal → List String
  | .arr items => specTextsAll items
  | _ => []

def specTextsAll : List JVal → List String
  | [] => []
  | x :: xs => specTexts x ++ specTextsAll xs
end

/-- Modelled from the spec (§4.1): fragments joined with newline
separators, with the fallback string when no fragment was collected. -/
def specJoin (v : JVal) : String :=
  if (specTexts v).isEmpty then "No description provided"
  else String.intercalate "\n" (specTexts v)

/-! ### The domain on which the traversal cannot raise

`tolerableB` characterises the inputs on which `extract_content` and the
subsequent `'\n'.join` cannot raise: every `content` value reached by
the traversal is a list, a string or a dict, and every `text` payload of
a reached `type == "text"` node is a string (or absent). -/

/-- Text payload of a `type == "text"` node is absent or a string. -/
def textOkB (fields : List (String × JVal)) : Bool :=
  if List.lookup "type" fields = some (JVal.str "text") then
    match List.lookup "text" fields with
    | none => true
    | some (JVal.str _) => true
    | some _ => false
  else true

mutual
def tolerableB : JVal → Bool
  | .obj fields => textOkB fields && contentOkB fields
  | .arr items => tolerableAll items
  | .null => true
  | .bool _ => true
  | .num _ => true
  | .str _ => true

def contentOkB : List (String × JVal) → Bool
  | [] => true
  | (k, v) :: rest => if k = "content" then iterOkB v else contentOkB rest

def iterOkB : JVal → Bool
  | .arr items => tolerableAll items
  | .str _ => true
  | .obj _ => true
  | .null => false
  | .bool _ => false
  | .num _ => false

def tolerableAll : List JVal → Bool
  | [] => true
  | x :: xs => tolerableB x && tolerableAll xs
end

theorem typeTextPart_spec (fields : List (String × JVal)) (h : textOkB fields = true) :
    typeTextPart fields = (specTypeText fields).map JVal.str := by
  unfold typeTextPart specTypeText
  unfold textOkB at h
  split
  · rename_i hty
    rw [if_pos hty] at h
    cases hlk : List.lookup "text" fields with
    | none => simp [hlk]
    | some v =>
        rw [hlk] at h
        cases v <;> simp_all
  · rfl

mutual
theorem extract_ok : ∀ v : JVal, tolerableB v = true →
    extractContent v = .ok ((specTexts v).map JVal.str)
  | .obj fields, h => by
      rw [tolerableB, Bool.and_eq_true] at h
      rw [extractContent, specTexts, content_ok fields h.2,
        typeTextPart_spec fields h.1]
      simp
  | .arr items, h => by
      rw [tolerableB] at h
      rw [extractContent, specTexts]
      exact all_ok items h
  | .null, _ => rfl
  | .bool _, _ => rfl
  | .num _, _ => rfl
  | .str _, _ => rfl

theorem content_ok : ∀ fs : List (String × JVal), contentOkB fs = true →
    contentParts fs = .ok ((specContentTexts fs).map JVal.str)
  | [], _ => rfl
  | (k, v) :: rest, h => by
      rw [contentOkB] at h
      rw [contentParts, specContentTexts]
      by_cases hk : k = "content"
      · rw [if_pos hk] at h ⊢
        rw [if_pos hk]
        exact iter_ok v h
      · rw [if_neg hk] at h ⊢
        rw [if_neg hk]
        exact content_ok rest h

theorem iter_ok : ∀ v : JVal, iterOkB v = true →
    iterContent v = .ok ((specIter v).map JVal.str)
  | .arr items, h => by
      rw [iterOkB] at h
      rw [iterContent, specIter]
      exact all_ok items h
  | .str _, _ => rfl
  | .obj _, _ => rfl
  | .null, h => by simp [iterOkB] at h
  | .bool _, h => by simp [iterOkB] at h
  | .num _, h => by simp [iterOkB] at h

theorem all_ok : ∀ xs : List JVal, tolerableAll xs = true →
    extractAll xs = .ok ((specTextsAll xs).map JVal.str)
  | [], _ => rfl
  | x :: xs, h => by
      rw [tolerableAll, Bool.and_eq_true] at h
      rw [extractAll, specTextsAll, extract_ok x h.1, all_ok xs h.2]
      simp
end

theorem listAllStrings_map (l : List String) :
    listAllStrings (l.map JVal.str) = some l := by
  induction l with
  | nil => rfl
  | cons s rest ih => simp [listAllStrings, ih]

theorem extractTextFromADF_ok (fields : List (String × JVal))
    (h : tolerableB (JVal.obj fields) = true) :
    extractTextFromADF (JVal.obj fields) = .ok (specJoin (JVal.obj fields)) := by
  rw [extractTextFromADF, extract_ok _ h, specJoin]
  cases hts : specTexts (JVal.obj fields) with
  | nil => simp
  | cons t ts =>
      simp [listAllStrings, listAllStrings_map]

theorem extractDescription_ok (fields : List (String × JVal))
    (h : tolerableB (JVal.obj fields) = true) :
    extractDescription (JVal.obj fields) = .ok (specJoin (JVal.obj fields)) := by
  cases fields with
  | nil => rfl
  | cons f rest =>
      rw [extractDescription]
      rw [if_neg (by simp [pyTruthy])]
      rw [extract_ok _ h, specJoin]
      cases hts : specTexts (JVal.obj (f :: rest)) with
      | nil => simp
      | cons t ts =>
          simp [listAllStrings, listAllStrings_map]

/-- C1 (counterexample).  The claim asserts that extraction tolerates
wrong types at any level by skipping; but on `{"content": null}` the
`for child in node['content']` loop raises `TypeError` in both
extractors, so extraction does not terminate normally on every input. -/
theorem extraction_raises_on_non_iterable_content :
    extractDescription (JVal.obj [("content", JVal.null)]) = .error () ∧
    extractTextFromADF (JVal.obj [("content", JVal.null)]) = .error () ∧
    extractDescription (JVal.obj [("type", JVal.str "text"), ("text", JVal.num 0),
      ("content", JVal.arr [])]) = .error () :=
  ⟨rfl, rfl, rfl⟩

/-- C1 (amended).  For every input in which each traversed `content`
value is a list, a dict or a string, and each traversed text node's
`text` payload is a string (or absent) — in particular for empty
objects, empty lists, deeply nested lists of objects and text nodes
missing `text` — both extractors terminate normally with a string,
skipping such malformed nodes. -/
theorem extraction_total_on_tolerable_inputs (v : JVal) (h : tolerableB v = true) :
    (∃ s, extractDescription v = .ok s) ∧ (∃ s, extractTextFromADF v = .ok s) := by
  cases v with
  | obj fields =>
      exact ⟨⟨specJoin (JVal.obj fields), extractDescription_ok fields h⟩,
        ⟨specJoin (JVal.obj fields), extractTextFromADF_ok fields h⟩⟩
  | null => exact ⟨⟨_, rfl⟩, ⟨_, rfl⟩⟩
  | bool b =>
      refine ⟨?_, ⟨_, rfl⟩⟩
      unfold extractDescription
      split
      · exact ⟨_, rfl⟩
      · exact ⟨_, rfl⟩
  | num n =>
      refine ⟨?_, ⟨_, rfl⟩⟩
      unfold extractDescription
      split
      · exact ⟨_, rfl⟩
      · exact ⟨_, rfl⟩
  | str s =>
      refine ⟨?_, ⟨_, rfl⟩⟩
      unfold extractDescription
      split
      · exact ⟨_, rfl⟩
      · exact ⟨_, rfl⟩
  | arr items =>
      refine ⟨?_, ⟨_, rfl⟩⟩
      unfold extractDescription
      split
      · exact ⟨_, rfl⟩
      · exact ⟨_, rfl⟩

/-- Witness for C1 (amended), at a deeply nested input containing an
empty object, an empty list, a nested list-of-objects and a text node
missing its `text` key. -/
theorem extraction_total_on_tolerable_inputs_witness :
    tolerableB (JVal.obj [("type", JVal.str "doc"),
      ("content", JVal.arr [JVal.arr [JVal.obj [("type", JVal.str "text")]],
        JVal.obj [], JVal.arr [],
        JVal.obj [("content", JVal.arr [JVal.obj [("type", JVal.str "text"),
          ("text", JVal.str "deep")]])]])]) = true ∧
    ((∃ s, extractDescription (JVal.obj [("type", JVal.str "doc"),
      ("content", JVal.arr [JVal.arr [JVal.obj [("type", JVal.str "text")]],
        JVal.obj [], JVal.arr [],
        JVal.obj [("content", JVal.arr [JVal.obj [("type", JVal.str "text"),
          ("text", JVal.str "deep")]])]])]) = .ok s) ∧
     (∃ s, extractTextFromADF (JVal.obj [("type", JVal.str "doc"),
      ("content", JVal.arr [JVal.arr [JVal.obj [("type", JVal.str "text")]],
        JVal.obj [], JVal.arr [],
        JVal.obj [("content", JVal.arr [JVal.obj [("type", JVal.str "text"),
          ("text", JVal.str "deep")]])]])]) = .ok s)) :=
  ⟨rfl, extraction_total_on_tolerable_inputs _ rfl⟩

/-- C2.  On every tolerable rich-document object the collected parts are
exactly the spec's pre-order, left-to-right sequence of `text` payloads
(absent `text` contributing the empty string), and both extractors
return those fragments joined with newline separators (fallback when
none were collected). -/
theorem extraction_matches_preorder_spec (fields : List (String × JVal))
    (h : tolerableB (JVal.obj fields) = true) :
    extractContent (JVal.obj fields) = .ok ((specTexts (JVal.obj fields)).map JVal.str) ∧
    extractTextFromADF (JVal.obj fields) = .ok (specJoin (JVal.obj fields)) ∧
    extractDescription (JVal.obj fields) = .ok (specJoin (JVal.obj fields)) :=
  ⟨extract_ok _ h, extractTextFromADF_ok fields h, extractDescription_ok fields h⟩

/-- Witness for C2, on a two-paragraph document: the result is the
pre-order concatenation "a", "b", "c" joined by newlines. -/
theorem extraction_matches_preorder_spec_witness :
    tolerableB (JVal.obj [("type", JVal.str "doc"),
      ("content", JVal.arr [
        JVal.obj [("type", JVal.str "paragraph"), ("content", JVal.arr [
          JVal.obj [("type", JVal.str "text"), ("text", JVal.str "a")],
          JVal.obj [("type", JVal.str "text"), ("text", JVal.str "b")]])],
        JVal.obj [("type", JVal.str "paragraph"), ("content", JVal.arr [
          JVal.obj [("type", JVal.str "text"), ("text", JVal.str "c")]])]])]) = true ∧
    specJoin (JVal.obj [("type", JVal.str "doc"),
      ("content", JVal.arr [
        JVal.obj [("type", JVal.str "paragraph"), ("content", JVal.arr [
          JVal.obj [("type", JVal.str "text"), ("text", JVal.str "a")],
          JVal.obj [("type", JVal.str "text"), ("text", JVal.str "b")]])],
        JVal.obj [("type", JVal.str "paragraph"), ("content", JVal.arr [
          JVal.obj [("type", JVal.str "text"), ("text", JVal.str "c")]])]])]) = "a\nb\nc" ∧
    (extractContent (JVal.obj [("type", JVal.str "doc"),
      ("content", JVal.arr [
        JVal.obj [("type", JVal.str "paragraph"), ("content", JVal.arr [
          JVal.obj [("type", JVal.str "text"), ("text", JVal.str "a")],
          JVal.obj [("type", JVal.str "text"), ("text", JVal.str "b")]])],
        JVal.obj [("type", JVal.str "paragraph"), ("content", JVal.arr [
          JVal.obj [("type", JVal.str "text"), ("text", JVal.str "c")]])]])]) =
      .ok ((specTexts (JVal.obj [("type", JVal.str "doc"),
      ("content", JVal.arr [
        JVal.obj [("type", JVal.str "paragraph"), ("content", JVal.arr [
          JVal.obj [("type", JVal.str "text"), ("text", JVal.str "a")],
          JVal.obj [("type", JVal.str "text"), ("text", JVal.str "b")]])],
        JVal.obj [("type", JVal.str "paragraph"), ("content", JVal.arr [
          JVal.obj [("type", JVal.str "text"), ("text", JVal.str "c")]])]])])).map JVal.str) ∧
     extractTextFromADF (JVal.obj [("type", JVal.str "doc"),
      ("content", JVal.arr [
        JVal.obj [("type", JVal.str "paragraph"), ("content", JVal.arr [
          JVal.obj [("type", JVal.str "text"), ("text", JVal.str "a")],
          JVal.obj [("type", JVal.str "text"), ("text", JVal.str "b")]])],
        JVal.obj [("type", JVal.str "paragraph"), ("content", JVal.arr [
          JVal.obj [("type", JVal.str "text"), ("text", JVal.str "c")]])]])]) =
      .ok (specJoin (JVal.obj [("type", JVal.str "doc"),
      ("content", JVal.arr [
        JVal.obj [("type", JVal.str "paragraph"), ("content", JVal.arr [
          JVal.obj [("type", JVal.str "text"), ("text", JVal.str "a")],
          JVal.obj [("type", JVal.str "text"), ("text", JVal.str "b")]])],
        JVal.obj [("type", JVal.str "paragraph"), ("content", JVal.arr [
          JVal.obj [("type", JVal.str "text"), ("text", JVal.str "c")]])]])])) ∧
     extractDescription (JVal.obj [("type", JVal.str "doc"),
      ("content", JVal.arr [
        JVal.obj [("type", JVal.str "paragraph"), ("content", JVal.arr [
          JVal.obj [("type", JVal.str "text"), ("text", JVal.str "a")],
          JVal.obj [("type", JVal.str "text"), ("text", JVal.str "b")]])],
        JVal.obj [("type", JVal.str "paragraph"), ("content", JVal.arr [
          JVal.obj [("type", JVal.str "text"), ("text", JVal.str "c")]])]])]) =
      .ok (specJoin (JVal.obj [("type", JVal.str "doc"),
      ("content", JVal.arr [
        JVal.obj [("type", JVal.str "paragraph"), ("content", JVal.arr [
          JVal.obj [("type", JVal.str "text"), ("text", JVal.str "a")],
          JVal.obj [("type", JVal.str "text"), ("text", JVal.str "b")]])],
        JVal.obj [("type", JVal.str "paragraph"), ("content", JVal.arr [
          JVal.obj [("type", JVal.str "text"), ("text", JVal.str "c")]])]])]))) :=
  ⟨rfl, rfl, extraction_matches_preorder_spec _ rfl⟩

/-- C3.  `_extract_description` applied to an absent value (Python
`None`), to an empty object and to a structurally present but textually
empty document all return the same fixed fallback string. -/
theorem fallback_equivalence :
    extractDescription JVal.null = .ok "No description provided" ∧
    extractDescription (JVal.obj []) = .ok "No description provided" ∧
    extractDescription (JVal.obj [("type", JVal.str "doc"), ("content", JVal.arr [])]) =
      .ok "No description provided" :=
  ⟨rfl, rfl, rfl⟩

/-! ### Attachment relocation

`JiraGitHubProcessor.process_attachments` (process_jira_bug.py:107-151)
downloads each attachment ref inside a per-attachment `try` block that
catches every exception and `continue`s; `upload_to_github_release`
(process_jira_bug.py:165-217) creates one release and uploads each
downloaded file into it.  The network and the filesystem are injected as
capabilities: `download url` returns the bytes or `none` (any network
failure), `save path data` returns whether the local write succeeded. -/

/-- One entry of `self.attachments` (process_jira_bug.py:137-143). -/
structure Attachment where
  filename : String
  path : String
  size : Int
  mime_type : JVal
  github_url : Option String
deriving DecidableEq

/-- The body of the per-attachment `try` block
(process_jira_bug.py:122-145): key lookups (`KeyError` on a missing key,
`TypeError` on wrong-typed values feeding `_format_size`, the URL
request or the path join), the download, and the local write; any
failure yields `none`, i.e. the `except ... continue`. -/
def tryProcessAttachment (download : String → Option (List Nat))
    (save : String → List Nat → Bool) (r : JVal) : Option Attachment :=
  match r with
  | .obj fs =>
      match List.lookup "filename" fs, List.lookup "content" fs, List.lookup "size" fs with
      | some (JVal.str fn), some (JVal.str url), some (JVal.num size) =>
          match download url with
          | some data =>
              if save ("attachments/" ++ fn) data then
                some { filename := fn, path := "attachments/" ++ fn, size := size,
                       mime_type := (List.lookup "mimeType" fs).getD
                         (JVal.str "application/octet-stream"),
                       github_url := none }
              else none
          | none => none
      | _, _, _ => none
  | _ => none

/-- The `for attachment in attachments_data` loop accumulating
`self.attachments` (process_jira_bug.py:121-149). -/
def processAttachmentsLoop (download : String → Option (List Nat))
    (save : String → List Nat → Bool) :
    List JVal → List Attachment → List Attachment
  | [], acc => acc
  | r :: rs, acc =>
      match tryProcessAttachment download save r with
      | some att => processAttachmentsLoop download save rs (acc ++ [att])
      | none => processAttachmentsLoop download save rs acc

/-- Model of `JiraGitHubProcessor.process_attachments`
(process_jira_bug.py:107-151) applied to the refs list. -/
def processAttachments (download : String → Option (List Nat))
    (save : String → List Nat → Bool) (refs : List JVal) : List Attachment :=
  processAttachmentsLoop download save refs []

theorem processAttachmentsLoop_acc (download : String → Option (List Nat))
    (save : String → List Nat → Bool) (rs : List JVal) : ∀ acc : List Attachment,
    processAttachmentsLoop download save rs acc =
      acc ++ processAttachmentsLoop download save rs [] := by
  induction rs with
  | nil => intro acc; simp [processAttachmentsLoop]
  | cons r rs ih =>
      intro acc
      cases h : tryProcessAttachment download save r with
      | some att =>
          simp only [processAttachmentsLoop, h]
          rw [ih (acc ++ [att]), ih ([] ++ [att])]
          simp
      | none =>
          simp only [processAttachmentsLoop, h]
          exact ih acc

theorem processAttachments_append (download : String → Option (List Nat))
    (save : String → List Nat → Bool) (xs ys : List JVal) :
    processAttachments download save (xs ++ ys) =
      processAttachments download save xs ++ processAttachments download save ys := by
  unfold processAttachments
  induction xs with
  | nil => simp [processAttachmentsLoop]
  | cons r rs ih =>
      simp only [List.cons_append]
      cases h : tryProcessAttachment download save r with
      | some att =>
          simp only [processAttachmentsLoop, h]
          rw [processAttachmentsLoop_acc download save (rs ++ ys),
            processAttachmentsLoop_acc download save rs, ih]
          simp
      | none =>
          simp only [processAttachmentsLoop, h]
          exact ih

theorem tryProcessAttachment_url_none (download : String → Option (List Nat))
    (save : String → List Nat → Bool) (r : JVal) (att : Attachment)
    (h : tryProcessAttachment download save r = some att) : att.github_url = none := by
  unfold tryProcessAttachment at h
  repeat' split at h
  all_goals simp_all
  exact (congrArg Attachment.github_url h.symm : _)

theorem processAttachments_url_none (download : String → Option (List Nat))
    (save : String → List Nat → Bool) (refs : List JVal) (att : Attachment)
    (h : att ∈ processAttachments download save refs) : att.github_url = none := by
  unfold processAttachments at h
  induction refs with
  | nil => simp [processAttachmentsLoop] at h
  | cons r rs ih =>
      cases hr : tryProcessAttachment download save r with
      | some b =>
          simp only [processAttachmentsLoop, hr] at h
          rw [processAttachmentsLoop_acc] at h
          rcases List.mem_append.mp h with hm | hm
          · simp at hm
            subst hm
            exact tryProcessAttachment_url_none download save r att hr
          · exact ih hm
      | none =>
          simp only [processAttachmentsLoop, hr] at h
          exact ih h

/-- C4.  A ref whose download (or any per-attachment step) fails
contributes nothing to `self.attachments` and does not stop the loop:
dropping it splits the output around it, and for 3 refs with the 2nd
failing the output is exactly the 2 entries for the 1st and 3rd refs in
their original relative order. -/
theorem download_failure_isolated (download : String → Option (List Nat))
    (save : String → List Nat → Bool) (a1 a2 a3 : JVal) (b1 b3 : Attachment)
    (h1 : tryProcessAttachment download save a1 = some b1)
    (h2 : tryProcessAttachment download save a2 = none)
    (h3 : tryProcessAttachment download save a3 = some b3) :
    processAttachments download save [a1, a2, a3] = [b1, b3] ∧
    ∀ xs ys : List JVal, processAttachments download save (xs ++ a2 :: ys) =
      processAttachments download save xs ++ processAttachments download save ys := by
  constructor
  · unfold processAttachments
    simp only [processAttachmentsLoop, h1, h2, h3]
    simp [processAttachmentsLoop]
  · intro xs ys
    rw [processAttachments_append]
    have : processAttachments download save (a2 :: ys) = processAttachments download save ys := by
      unfold processAttachments
      simp only [processAttachmentsLoop, h2]
    rw [this]

/-- Witness for C4: a concrete downloader failing exactly on the 2nd
ref's URL; the output keeps the 1st and 3rd attachments in order. -/
theorem download_failure_isolated_witness :
    tryProcessAttachment (fun u => if u = "u2" then none else some [7])
      (fun _ _ => true)
      (JVal.obj [("filename", JVal.str "a.png"), ("content", JVal.str "u1"),
        ("size", JVal.num 10)]) =
      some { filename := "a.png", path := "attachments/a.png", size := 10,
             mime_type := JVal.str "application/octet-stream", github_url := none } ∧
    tryProcessAttachment (fun u => if u = "u2" then none else some [7])
      (fun _ _ => true)
      (JVal.obj [("filename", JVal.str "b.log"), ("content", JVal.str "u2"),
        ("size", JVal.num 20)]) = none ∧
    tryProcessAttachment (fun u => if u = "u2" then none else some [7])
      (fun _ _ => true)
      (JVal.obj [("filename", JVal.str "c.txt"), ("content", JVal.str "u3"),
        ("size", JVal.num 30)]) =
      some { filename := "c.txt", path := "attachments/c.txt", size := 30,
             mime_type := JVal.str "application/octet-stream", github_url := none } ∧
    processAttachments (fun u => if u = "u2" then none else some [7])
      (fun _ _ => true)
      [JVal.obj [("filename", JVal.str "a.png"), ("content", JVal.str "u1"),
        ("size", JVal.num 10)],
       JVal.obj [("filename", JVal.str "b.log"), ("content", JVal.str "u2"),
        ("size", JVal.num 20)],
       JVal.obj [("filename", JVal.str "c.txt"), ("content", JVal.str "u3"),
        ("size", JVal.num 30)]] =
      [{ filename := "a.png", path := "attachments/a.png", size := 10,
         mime_type := JVal.str "application/octet-stream", github_url := none },
       { filename := "c.txt", path := "attachments/c.txt", size := 30,
         mime_type := JVal.str "application/octet-stream", github_url := none }] :=
  ⟨rfl, rfl, rfl,
   (download_failure_isolated (fun u => if u = "u2" then none else some [7])
      (fun _ _ => true)
      (JVal.obj [("filename", JVal.str "a.png"), ("content", JVal.str "u1"),
        ("size", JVal.num 10)])
      (JVal.obj [("filename", JVal.str "b.log"), ("content", JVal.str "u2"),
        ("size", JVal.num 20)])
      (JVal.obj [("filename", JVal.str "c.txt"), ("content", JVal.str "u3"),
        ("size", JVal.num 30)])
      { filename := "a.png", path := "attachments/a.png", size := 10,
        mime_type := JVal.str "application/octet-stream", github_url := none }
      { filename := "c.txt", path := "attachments/c.txt", size := 30,
        mime_type := JVal.str "application/octet-stream", github_url := none }
      rfl rfl rfl).1⟩

/-! ### Release upload and the rendered attachments section -/

/-- Model of `str.lower()`; the scripts only lower-case ASCII names. -/
def pyLower (s : String) : String := String.mk (s.toList.map Char.toLower)

/-- Model of `str.split(sep)` for a one-character separator. -/
def splitOnChar (sep : Char) : List Char → List (List Char)
  | [] => [[]]
  | c :: rest =>
      match splitOnChar sep rest with
      | [] => [[]]
      | g :: gs => if c = sep then [] :: g :: gs else (c :: g) :: gs

/-- Model of `str.split(sep)` on strings. -/
def pySplit (s : String) (sep : Char) : List String :=
  (splitOnChar sep s.toList).map String.mk

/-- Model of `str.startswith(pre)`. -/
def pyStartsWith (s pre : String) : Bool := pre.toList.isPrefixOf s.toList

/-- Extension-to-icon table of `_get_file_icon`
(process_jira_bug.py:457-464, issue_generator.py:165-172). -/
def iconTable : List (String × String) :=
  [("png", "🖼️"), ("jpg", "🖼️"), ("jpeg", "🖼️"), ("gif", "🖼️"), ("svg", "🖼️"),
   ("pdf", "📄"), ("doc", "📄"), ("docx", "📄"), ("txt", "📄"),
   ("zip", "📦"), ("tar", "📦"), ("gz", "📦"), ("rar", "📦"),
   ("log", "📝"), ("json", "📋"), ("xml", "📋"), ("yaml", "📋"), ("yml", "📋"),
   ("mp4", "🎥"), ("avi", "🎥"), ("mov", "🎥"),
   ("mp3", "🎵"), ("wav", "🎵")]

/-- Model of `_get_file_icon` (process_jira_bug.py:454-465,
issue_generator.py:162-173): `filename.lower().split('.')[-1]` — the
characters after the last dot of the lower-cased name — when the name
contains a dot, the empty string otherwise. -/
def getFileIcon (filename : String) : String :=
  let ext := if filename.toList.contains (Char.ofNat 46) then
    String.mk (((pyLower filename).toList.reverse.takeWhile
      (fun c => c ≠ Char.ofNat 46)).reverse)
    else ""
  (List.lookup ext iconTable).getD "📎"

/-- Models the f-string fragment `f"{size_kb:.2f}"` with
`size_kb = att['size'] / 1024`: for `0 ≤ size < 2^53` the float
`size / 1024` is exact (division by a power of two), so the printed
value is `size * 25 / 256` hundredths rounded ties-to-even. -/
def fmtSizeKB (size : Int) : String :=
  let n := size * 25
  let q := n / 256
  let r := n % 256
  let cents := if r > 128 then q + 1 else if r < 128 then q
    else if q % 2 = 0 then q else q + 1
  toString (cents / 100) ++ "." ++
    (if cents % 100 < 10 then "0" else "") ++ toString (cents % 100)

/-- The no-link rendering branch (issue_generator.py:158,
process_jira_bug.py:321). -/
def failedLine (att : Attachment) : String :=
  "- " ++ getFileIcon att.filename ++ " **" ++ att.filename ++ "** - " ++
    fmtSizeKB att.size ++ " KB ⚠️ *Upload failed*\n"

/-- The linked rendering branch (issue_generator.py:156,
process_jira_bug.py:319). -/
def linkedLine (att : Attachment) (url : String) : String :=
  "- " ++ getFileIcon att.filename ++ " **[" ++ att.filename ++ "](" ++ url ++
    ")** - " ++ fmtSizeKB att.size ++ " KB\n"

/-- One line of the attachments section; `att.get('github_url')` is
truthy only for a present, non-empty URL. -/
def attachmentLine (att : Attachment) : String :=
  match att.github_url with
  | some url => if url = "" then failedLine att else linkedLine att url
  | none => failedLine att

/-- Model of `IssueBodyGenerator._build_attachments_section`
(issue_generator.py:145-160). -/
def buildAttachmentsSection (atts : List Attachment) : String :=
  if atts.isEmpty then ""
  else "\n## 📎 Attachments\n\n" ++ String.join (atts.map attachmentLine)

/-- Upper-case hexadecimal digit. -/
def hexDigit (n : Nat) : Char :=
  Char.ofNat (if n < 10 then 48 + n else 55 + n)

/-- Percent-encoding of one UTF-8 byte as `urllib.parse.quote` with
`safe=''` does: ASCII letters, digits, `_`, `.`, `-` and `~` are kept,
everything else becomes `%XX`. -/
def quoteByte (b : Nat) : String :=
  if (65 ≤ b ∧ b ≤ 90) ∨ (97 ≤ b ∧ b ≤ 122) ∨ (48 ≤ b ∧ b ≤ 57) ∨
      b = 95 ∨ b = 46 ∨ b = 45 ∨ b = 126 then
    (Char.ofNat b).toString
  else
    "%" ++ (hexDigit (b / 16)).toString ++ (hexDigit (b % 16)).toString

/-- Model of `quote(attachment['filename'], safe='')`
(process_jira_bug.py:232). -/
def urlQuote (s : String) : String :=
  String.join (s.toUTF8.toList.map (fun b => quoteByte b.toNat))

/-- Model of `_upload_asset` (process_jira_bug.py:220-264): read the
local file (failure returns, leaving the attachment untouched), POST to
the encoded asset URL; on success `github_url` is set to the response's
`browser_download_url` (which may itself be absent), every failure is
caught and leaves `github_url` as it was. -/
def uploadAssetModel (uploadResp : String → Option (Option String))
    (readFile : String → Option (List Nat)) (uploadUrl : String)
    (att : Attachment) : Attachment :=
  match readFile att.path with
  | none => att
  | some _ =>
      match uploadResp (uploadUrl ++ "?name=" ++ urlQuote att.filename) with
      | none => att
      | some resp => { att with github_url := resp }

/-- Model of `upload_to_github_release` (process_jira_bug.py:165-217):
one release tagged `jira-{key.lower()}-{time}` is created; if creation
fails (HTTP error or any other exception, both caught at lines 205-217)
the method returns with every attachment untouched and no upload is
attempted; otherwise each attachment is uploaded independently.
`createRelease tag` returns the release's upload URL or `none`. -/
def uploadToGithubRelease (createRelease : String → Option String)
    (uploadResp : String → Option (Option String))
    (readFile : String → Option (List Nat))
    (bugKey : String) (now : Int) (atts : List Attachment) : List Attachment :=
  let releaseTag := "jira-" ++ pyLower bugKey ++ "-" ++ toString now
  match createRelease releaseTag with
  | none => atts
  | some uploadUrl => atts.map (uploadAssetModel uploadResp readFile uploadUrl)

/-- C5.  When release creation fails: the attachment sequence is
returned unchanged, the result does not depend on the upload capability
at all (no upload is attempted or retried), every attachment coming out
of the download phase has `github_url = none`, and the rendered
attachments section lists every such attachment with the
"Upload failed" marker line (which contains no link). -/
theorem upload_failure_preserves_listing
    (createRelease : String → Option String) (hcr : ∀ t, createRelease t = none)
    (u u2 : String → Option (Option String)) (readFile : String → Option (List Nat))
    (key : String) (now : Int) (atts : List Attachment)
    (hurl : ∀ a ∈ atts, a.github_url = none) (hne : atts ≠ []) :
    uploadToGithubRelease createRelease u readFile key now atts = atts ∧
    uploadToGithubRelease createRelease u readFile key now atts =
      uploadToGithubRelease createRelease u2 readFile key now atts ∧
    (∀ d s refs a, a ∈ processAttachments d s refs → a.github_url = none) ∧
    buildAttachmentsSection atts =
      "\n## 📎 Attachments\n\n" ++ String.join (atts.map failedLine) := by
  refine ⟨?_, ?_, ?_, ?_⟩
  · simp only [uploadToGithubRelease, hcr]
  · simp only [uploadToGithubRelease, hcr]
  · exact fun d s refs a h => processAttachments_url_none d s refs a h
  · unfold buildAttachmentsSection
    rw [if_neg (by simpa [List.isEmpty_iff] using hne)]
    congr 1
    apply congrArg
    apply List.map_congr_left
    intro a ha
    unfold attachmentLine
    rw [hurl a ha]

/-- Witness for C5: two downloaded attachments, failed release creation;
both stay URL-less and are rendered with the "Upload failed" marker. -/
theorem upload_failure_preserves_listing_witness :
    (∀ t, (fun _ : String => (none : Option String)) t = none) ∧
    (∀ a ∈ [{ filename := "a.png", path := "attachments/a.png", size := 2048,
              mime_type := JVal.str "image/png", github_url := none },
            { filename := "b.log", path := "attachments/b.log", size := 512,
              mime_type := JVal.str "text/plain", github_url := none }],
      Attachment.github_url a = none) ∧
    uploadToGithubRelease (fun _ => none) (fun _ => none) (fun _ => some [1])
      "BUG-1" 1700000000
      [{ filename := "a.png", path := "attachments/a.png", size := 2048,
         mime_type := JVal.str "image/png", github_url := none },
       { filename := "b.log", path := "attachments/b.log", size := 512,
         mime_type := JVal.str "text/plain", github_url := none }] =
      [{ filename := "a.png", path := "attachments/a.png", size := 2048,
         mime_type := JVal.str "image/png", github_url := none },
       { filename := "b.log", path := "attachments/b.log", size := 512,
         mime_type := JVal.str "text/plain", github_url := none }] ∧
    buildAttachmentsSection
      [{ filename := "a.png", path := "attachments/a.png", size := 2048,
         mime_type := JVal.str "image/png", github_url := none },
       { filename := "b.log", path := "attachments/b.log", size := 512,
         mime_type := JVal.str "text/plain", github_url := none }] =
      "\n## 📎 Attachments\n\n" ++
        "- 🖼️ **a.png** - 2.00 KB ⚠️ *Upload failed*\n" ++
        "- 📝 **b.log** - 0.50 KB ⚠️ *Upload failed*\n" := by
  have h := upload_failure_preserves_listing (fun _ => none) (fun _ => rfl)
    (fun _ => none) (fun _ => none) (fun _ => some [1]) "BUG-1" 1700000000
    [{ filename := "a.png", path := "attachments/a.png", size := 2048,
       mime_type := JVal.str "image/png", github_url := none },
     { filename := "b.log", path := "attachments/b.log", size := 512,
       mime_type := JVal.str "text/plain", github_url := none }]
    (by
      intro a ha
      simp only [List.mem_cons, List.not_mem_nil, or_false] at ha
      rcases ha with rfl | rfl <;> rfl)
    (by simp)
  refine ⟨fun _ => rfl, ?_, h.1, ?_⟩
  · intro a ha
    simp only [List.mem_cons, List.not_mem_nil, or_false] at ha
    rcases ha with rfl | rfl <;> rfl
  · rw [h.2.2.2]
    rfl

/-! ### The issue body renderer

`IssueBodyGenerator.generate` (issue_generator.py:31-115) extracts and
defaults every field and then substitutes them into the loaded template
by named placeholder (`self.template_content.format(...)`).
`generateFields` below returns the record of placeholder values exactly
as `format` receives them (each rendered via Python `str`, which is what
`format` applies to a non-string value); the issue body is the template
with these values substituted, so every claim about field defaulting is
a claim about this record. -/

/-- `fields.get(key, {}).get(sub, dflt)` (issue_generator.py:47-51,
process_jira_bug.py:273-277): an absent key falls back to `{}` and hence
the default, an absent sub-key gives the default, and a present value
that is not a dict (in particular `None`) raises `AttributeError`. -/
def dictGetAttr (fields : List (String × JVal)) (key sub dflt : String) :
    Except Unit JVal :=
  match List.lookup key fields with
  | none => .ok (.str dflt)
  | some (.obj fs) => .ok ((List.lookup sub fs).getD (.str dflt))
  | some _ => .error ()

/-- The null-safe assignee handling (issue_generator.py:54-55): a falsy
`fields.get('assignee')` gives the default without attribute access. -/
def assigneeOf (fields : List (String × JVal)) : Except Unit JVal :=
  match List.lookup "assignee" fields with
  | none => .ok (.str "Unassigned")
  | some v =>
      if pyTruthy v then
        match v with
        | .obj fs => .ok ((List.lookup "displayName" fs).getD (.str "Unassigned"))
        | _ => .error ()
      else .ok (.str "Unassigned")

/-- `[c['name'] for c in fields.get(key, [])]` (issue_generator.py:64,
72, 75): an absent key iterates `[]`; a present list requires every
element to be a dict with a `name` key (`TypeError`/`KeyError`
otherwise); iterating a non-empty string or dict subscripts a string
with `'name'` (`TypeError`); any other present value is not iterable. -/
def namesOf (v : Option JVal) : Except Unit (List JVal) :=
  match v with
  | none => .ok []
  | some (.arr items) => items.mapM (fun c =>
      match c with
      | .obj fs =>
          match List.lookup "name" fs with
          | some n => Except.ok n
          | none => Except.error ()
      | _ => Except.error ())
  | some (.str s) => if s = "" then .ok [] else .error ()
  | some (.obj fs) => if fs.isEmpty then .ok [] else .error ()
  | some _ => .error ()

/-- `sep.join(parts)`: requires every part to be a string. -/
def joinStrs (sep : String) (parts : List JVal) : Except Unit String :=
  match listAllStrings parts with
  | some ss => .ok (String.intercalate sep ss)
  | none => .error ()

/-- `', '.join(xs) if xs else dflt` (issue_generator.py:65, 73, 76). -/
def joinedOrDefault (parts : List JVal) (dflt : String) : Except Unit String :=
  if parts.isEmpty then .ok dflt else joinStrs ", " parts

/-- `', '.join(f'`{label}`' for label in labels) if labels else 'None'`
with `labels = fields.get('labels', [])` (issue_generator.py:68-69):
falsy (absent, null, empty) gives "None"; a truthy list, string or dict
is iterated with each element backtick-wrapped via `str`; any other
truthy value is not iterable. -/
def labelsText (v : Option JVal) : Except Unit String :=
  let lv := v.getD (.arr [])
  if pyTruthy lv = false then .ok "None"
  else
    match lv with
    | .arr items =>
        .ok (String.intercalate ", " (items.map (fun l => "`" ++ pyStr l ++ "`")))
    | .str s =>
        .ok (String.intercalate ", " (s.toList.map (fun c => "`" ++ c.toString ++ "`")))
    | .obj fs =>
        .ok (String.intercalate ", " (fs.map (fun kv => "`" ++ kv.1 ++ "`")))
    | _ => .error ()

/-- One candidate line of `_build_custom_fields_section`
(issue_generator.py:175-199): keys namespaced `customfield_` with a
truthy value; dicts render their `value` or `name` sub-field (nothing
when both are absent), lists render each element's `value` (or the
element itself), scalars render directly. -/
def customFieldEntry (kv : String × JVal) : Option String :=
  if pyStartsWith kv.1 "customfield_" && pyTruthy kv.2 then
    match kv.2 with
    | .obj fs =>
        match List.lookup "value" fs with
        | some v => some ("- **" ++ kv.1 ++ "**: " ++ pyStr v)
        | none =>
            match List.lookup "name" fs with
            | some v => some ("- **" ++ kv.1 ++ "**: " ++ pyStr v)
            | none => none
    | .arr items =>
        some ("- **" ++ kv.1 ++ "**: " ++ String.intercalate ", "
          (items.map (fun it =>
            match it with
            | .obj fs => pyStr ((List.lookup "value" fs).getD it)
            | _ => pyStr it)))
    | .null => none
    | _ => some ("- **" ++ kv.1 ++ "**: " ++ pyStr kv.2)
  else none

/-- Model of `_build_custom_fields_section` (issue_generator.py:175-199). -/
def customFieldsSection (fs : List (String × JVal)) : String :=
  let entries := fs.filterMap customFieldEntry
  if entries.isEmpty then ""
  else "\n## 🔧 Custom Fields\n\n" ++ String.intercalate "\n" entries ++ "\n"

/-- The placeholder values `generate` passes to
`self.template_content.format` (issue_generator.py:93-113), named as in
the source. -/
structure GeneratedFields where
  bug_type : String
  summary : String
  bug_key : String
  bug_key_lower : String
  jira_url : String
  priority : String
  status : String
  reporter : String
  assignee : String
  components : String
  labels : String
  versions : String
  fix_versions : String
  description : String
  environment : String
  attachments_section : String
  custom_fields_section : String
  created : String
  updated : String
deriving DecidableEq

/-- Model of `IssueBodyGenerator.generate` (issue_generator.py:31-115)
up to the final template substitution: returns the placeholder values.
`Except.error ()` models an exception raised during field extraction
(e.g. `None.get(...)` when a field is present but null). -/
def generateFields (jiraData : JVal) (baseUrl : String) (atts : List Attachment) :
    Except Unit GeneratedFields := do
  let jfs ← match jiraData with
    | .obj jfs => Except.ok jfs
    | _ => Except.error ()
  let fieldsV ← match List.lookup "fields" jfs with
    | some v => Except.ok v
    | none => Except.error ()
  let fields ← match fieldsV with
    | .obj fs => Except.ok fs
    | _ => Except.error ()
  let keyV ← match List.lookup "key" jfs with
    | some v => Except.ok v
    | none => Except.error ()
  let bugKey ← match keyV with
    | .str s => Except.ok s
    | _ => Except.error ()
  let bugType ← dictGetAttr fields "issuetype" "name" "Bug"
  let summary := (List.lookup "summary" fields).getD (.str "No title")
  let priority ← dictGetAttr fields "priority" "name" "Medium"
  let status ← dictGetAttr fields "status" "name" "Unknown"
  let reporter ← dictGetAttr fields "reporter" "displayName" "Unknown"
  let assignee ← assigneeOf fields
  let created := (List.lookup "created" fields).getD (.str "Unknown")
  let updated := (List.lookup "updated" fields).getD (.str "Unknown")
  let description ← extractDescription ((List.lookup "description" fields).getD (.str ""))
  let componentNames ← namesOf (List.lookup "components" fields)
  let componentsText ← joinedOrDefault componentNames "None"
  let labelsTextV ← labelsText (List.lookup "labels" fields)
  let versionNames ← namesOf (List.lookup "versions" fields)
  let versionsText ← joinedOrDefault versionNames "Not specified"
  let fixVersionNames ← namesOf (List.lookup "fixVersions" fields)
  let fixVersionsText ← joinedOrDefault fixVersionNames "Not specified"
  let environment0 ← extractDescription ((List.lookup "environment" fields).getD (.str ""))
  let environment := if environment0 = "" then "Not specified" else environment0
  Except.ok {
    bug_type := pyStr bugType
    summary := pyStr summary
    bug_key := bugKey
    bug_key_lower := pyLower bugKey
    jira_url := baseUrl ++ "/browse/" ++ bugKey
    priority := pyStr priority
    status := pyStr status
    reporter := pyStr reporter
    assignee := pyStr assignee
    components := componentsText
    labels := labelsTextV
    versions := versionsText
    fix_versions := fixVersionsText
    description := description
    environment := environment
    attachments_section := buildAttachmentsSection atts
    custom_fields_section := customFieldsSection fields
    created := pyStr created
    updated := pyStr updated }

theorem exceptBind_ok {α β : Type} (a : α) (f : α → Except Unit β) :
    (do let x ← Except.ok a; f x) = f a := rfl

/-- C6 (counterexample).  The renderer does not default every
present-but-null field and deviates from the stated environment default:
a null `priority` raises (`None.get`), so no default reaches the output;
a missing `environment` renders as "No description provided", not the
stated "Not specified"; a null `summary` renders as "None", a null value
reaching the output. -/
theorem renderer_defaults_cx :
    generateFields (JVal.obj [("key", JVal.str "B-1"),
      ("fields", JVal.obj [("priority", JVal.null)])]) "https://j" [] = .error () ∧
    (generateFields (JVal.obj [("key", JVal.str "B-1"), ("fields", JVal.obj [])])
      "https://j" []).map GeneratedFields.environment = .ok "No description provided" ∧
    ("No description provided" : String) ≠ "Not specified" ∧
    (generateFields (JVal.obj [("key", JVal.str "B-1"),
      ("fields", JVal.obj [("summary", JVal.null)])]) "https://j" []).map
      GeneratedFields.summary = .ok "None" :=
  ⟨rfl, rfl, by decide, rfl⟩

/-- C6 (amended).  For every source record, each field that is missing
is substituted by its stated default (type "Bug", summary "No title",
priority "Medium", status "Unknown", reporter "Unknown", assignee
"Unassigned", components "None", labels "None", affected and fix
versions "Not specified", description "No description provided") —
except that a missing environment renders as "No description provided"
rather than "Not specified".  A present-but-null value is defaulted only
for assignee ("Unassigned"), labels ("None") and description
("No description provided"); a null issuetype, priority, status or
reporter raises an error, and a null summary reaches the rendered
output as "None". -/
theorem renderer_defaults_on_missing_fields (baseUrl k : String)
    (fields : List (String × JVal))
    (h1 : List.lookup "issuetype" fields = none)
    (h2 : List.lookup "priority" fields = none)
    (h3 : List.lookup "status" fields = none)
    (h4 : List.lookup "reporter" fields = none)
    (h5 : List.lookup "assignee" fields = none)
    (h6 : List.lookup "components" fields = none)
    (h7 : List.lookup "labels" fields = none)
    (h8 : List.lookup "versions" fields = none)
    (h9 : List.lookup "fixVersions" fields = none)
    (h10 : List.lookup "description" fields = none)
    (h11 : List.lookup "environment" fields = none)
    (h12 : List.lookup "summary" fields = none) :
    (∃ g, generateFields (JVal.obj [("key", JVal.str k), ("fields", JVal.obj fields)])
        baseUrl [] = .ok g ∧
      g.bug_type = "Bug" ∧ g.summary = "No title" ∧ g.priority = "Medium" ∧
      g.status = "Unknown" ∧ g.reporter = "Unknown" ∧ g.assignee = "Unassigned" ∧
      g.components = "None" ∧ g.labels = "None" ∧ g.versions = "Not specified" ∧
      g.fix_versions = "Not specified" ∧ g.description = "No description provided" ∧
      g.environment = "No description provided") ∧
    (generateFields (JVal.obj [("key", JVal.str "K-1"), ("fields", JVal.obj
        [("assignee", JVal.null), ("labels", JVal.null), ("description", JVal.null)])])
        "u" []).map (fun g => (g.assignee, g.labels, g.description)) =
      .ok ("Unassigned", "None", "No description provided") := by
  refine ⟨⟨{ bug_type := "Bug"
             summary := "No title"
             bug_key := k
             bug_key_lower := pyLower k
             jira_url := baseUrl ++ "/browse/" ++ k
             priority := "Medium"
             status := "Unknown"
             reporter := "Unknown"
             assignee := "Unassigned"
             components := "None"
             labels := "None"
             versions := "Not specified"
             fix_versions := "Not specified"
             description := "No description provided"
             environment := "No description provided"
             attachments_section := ""
             custom_fields_section := customFieldsSection fields
             created := pyStr ((List.lookup "created" fields).getD (JVal.str "Unknown"))
             updated := pyStr ((List.lookup "updated" fields).getD (JVal.str "Unknown")) },
    ?_, rfl, rfl, rfl, rfl, rfl, rfl, rfl, rfl, rfl, rfl, rfl, rfl⟩, rfl⟩
  have l1 : List.lookup "fields" [("key", JVal.str k), ("fields", JVal.obj fields)]
      = some (JVal.obj fields) := rfl
  have l2 : List.lookup "key" [("key", JVal.str k), ("fields", JVal.obj fields)]
      = some (JVal.str k) := rfl
  simp only [generateFields, exceptBind_ok, l1, l2]
  simp only [h1, h2, h3, h4, h5, h6, h7, h8, h9, h10, h11, h12,
    dictGetAttr, assigneeOf, namesOf, labelsText, joinedOrDefault, exceptBind_ok]
  rfl

/-- Witness for C6 (amended): a record with an empty fields mapping gets
every stated default (with environment rendering the extraction
fallback). -/
theorem renderer_defaults_on_missing_fields_witness :
    List.lookup "issuetype" ([] : List (String × JVal)) = none ∧
    List.lookup "priority" ([] : List (String × JVal)) = none ∧
    List.lookup "summary" ([] : List (String × JVal)) = none ∧
    ((∃ g, generateFields (JVal.obj [("key", JVal.str "BUG-7"),
          ("fields", JVal.obj [])]) "https://jira.example.com" [] = .ok g ∧
        g.bug_type = "Bug" ∧ g.summary = "No title" ∧ g.priority = "Medium" ∧
        g.status = "Unknown" ∧ g.reporter = "Unknown" ∧ g.assignee = "Unassigned" ∧
        g.components = "None" ∧ g.labels = "None" ∧ g.versions = "Not specified" ∧
        g.fix_versions = "Not specified" ∧ g.description = "No description provided" ∧
        g.environment = "No description provided") ∧
      (generateFields (JVal.obj [("key", JVal.str "K-1"), ("fields", JVal.obj
          [("assignee", JVal.null), ("labels", JVal.null), ("description", JVal.null)])])
          "u" []).map (fun g => (g.assignee, g.labels, g.description)) =
        .ok ("Unassigned", "None", "No description provided")) :=
  ⟨rfl, rfl, rfl,
   renderer_defaults_on_missing_fields "https://jira.example.com" "BUG-7" []
     rfl rfl rfl rfl rfl rfl rfl rfl rfl rfl rfl rfl⟩

/-! ### Severity derivation and label building

`severity_label` (github-client.py:15-26) parses a CVSS score and maps
it to a severity label; `build_issue_labels` (github-client.py:28-38)
deduplicates the label list.  Python floats are modelled by rationals:
CVSS scores are short decimal literals, for which `float` parsing and
the comparisons against 9.0, 7.0 and 4.0 are exact. -/

/-- Value of an all-digit character sequence. -/
def decDigits (cs : List Char) : Nat :=
  cs.foldl (fun n c => n * 10 + (c.toNat - 48)) 0

/-- An exact decimal number `m / 10 ^ e`.  Python floats are modelled by
exact decimals: parsing a short decimal literal and comparing it against
the thresholds 9.0, 7.0 and 4.0 is exact in binary floating point (the
nearest double to a decimal below a threshold is still below it), so the
model coincides with `float` on every CVSS-style score. -/
structure Dec where
  m : Int
  e : Nat
deriving DecidableEq

/-- Exact order on decimals by cross-multiplication. -/
def decLE (a b : Dec) : Bool :=
  a.m * (10 : Int) ^ b.e ≤ b.m * (10 : Int) ^ a.e

/-- Model of Python `float(s)` on plain decimal literals
(`[+-]?digits[.digits]` with at least one digit); `none` models
`ValueError`.  (`float` also accepts exponents, `inf`/`nan` and
surrounding whitespace; no score in this pipeline uses those forms.) -/
def parseDecimal (s : String) : Option Dec :=
  let cs := s.toList
  let sign : Int × List Char :=
    match cs with
    | c :: rest =>
        if c = Char.ofNat 45 then (-1, rest)
        else if c = Char.ofNat 43 then (1, rest) else (1, cs)
    | [] => (1, cs)
  match splitOnChar (Char.ofNat 46) sign.2 with
  | [intPart] =>
      if intPart ≠ [] ∧ intPart.all Char.isDigit then
        some ⟨sign.1 * decDigits intPart, 0⟩
      else none
  | [intPart, fracPart] =>
      if (intPart ≠ [] ∨ fracPart ≠ []) ∧ intPart.all Char.isDigit ∧
          fracPart.all Char.isDigit then
        some ⟨sign.1 * (decDigits intPart * (10 : Int) ^ fracPart.length +
          decDigits fracPart), fracPart.length⟩
      else none
  | _ => none

/-- Model of `float(v)` on a modelled value: numbers and booleans
convert, strings are parsed, everything else raises `TypeError`
(modelled as `none`, which `severity_label` turns into 0.0). -/
def pyFloat : JVal → Option Dec
  | .num n => some ⟨n, 0⟩
  | .bool b => some ⟨if b then 1 else 0, 0⟩
  | .str s => parseDecimal s
  | _ => none

/-- Model of `severity_label` (github-client.py:15-26). -/
def severityLabel (cvssRaw : JVal) : String :=
  let score : Dec :=
    if cvssRaw = JVal.str "N/A" ∨ cvssRaw = JVal.null ∨ cvssRaw = JVal.str "" then ⟨0, 0⟩
    else (pyFloat cvssRaw).getD ⟨0, 0⟩
  if decLE ⟨9, 0⟩ score then "severity:critical"
  else if decLE ⟨7, 0⟩ score then "severity:high"
  else if decLE ⟨4, 0⟩ score then "severity:medium"
  else "severity:low"

/-- The dedup loop of `build_issue_labels` (github-client.py:33-37):
`seen` is the membership set, `acc` the output list; falsy labels are
dropped, a label already seen is skipped. -/
def dedupLoop : List JVal → List JVal → List JVal → List JVal
  | [], _, acc => acc
  | l :: ls, seen, acc =>
      if pyTruthy l = true ∧ l ∉ seen then dedupLoop ls (l :: seen) (acc ++ [l])
      else dedupLoop ls seen acc

/-- Model of `build_issue_labels(vuln, extra_labels)`
(github-client.py:28-38); `cvss` is `vuln.get("CVSS Score")` (null when
the column is absent). -/
def buildIssueLabels (cvss : JVal) (extraLabels : List JVal) : List JVal :=
  dedupLoop (extraLabels ++ [JVal.str "vulnerability", JVal.str (severityLabel cvss)]) [] []

theorem dedupLoop_acc (ls : List JVal) : ∀ (seen acc : List JVal),
    dedupLoop ls seen acc = acc ++ dedupLoop ls seen [] := by
  induction ls with
  | nil => intro seen acc; simp [dedupLoop]
  | cons l ls ih =>
      intro seen acc
      by_cases hc : pyTruthy l = true ∧ l ∉ seen
      · rw [dedupLoop, if_pos hc, dedupLoop, if_pos hc,
          ih (l :: seen) (acc ++ [l]), ih (l :: seen) ([] ++ [l])]
        simp
      · rw [dedupLoop, if_neg hc, dedupLoop, if_neg hc]
        exact ih seen acc

theorem dedupLoop_mem (ls : List JVal) : ∀ (seen : List JVal) (a : JVal),
    a ∈ dedupLoop ls seen [] ↔
      (pyTruthy a = true ∧ a ∈ ls ∧ a ∉ seen) := by
  induction ls with
  | nil => intro seen a; simp [dedupLoop]
  | cons l ls ih =>
      intro seen a
      by_cases hc : pyTruthy l = true ∧ l ∉ seen
      · rw [dedupLoop, if_pos hc, dedupLoop_acc ls (l :: seen) ([] ++ [l])]
        simp only [List.nil_append, List.cons_append, List.mem_cons,
          List.not_mem_nil, or_false, List.mem_append, List.mem_singleton]
        constructor
        · rintro (rfl | hm)
          · exact ⟨hc.1, Or.inl rfl, hc.2⟩
          · rcases (ih (l :: seen) a).mp hm with ⟨ht, hin, hns⟩
            exact ⟨ht, Or.inr hin, fun hs => hns (List.mem_cons_of_mem _ hs)⟩
        · rintro ⟨ht, hm, hns⟩
          by_cases hal : a = l
          · exact Or.inl hal
          · rcases hm with rfl | hm
            · exact Or.inl rfl
            · refine Or.inr ((ih (l :: seen) a).mpr ⟨ht, hm, ?_⟩)
              intro hs
              rcases List.mem_cons.mp hs with rfl | hs
              · exact hal rfl
              · exact hns hs
      · rw [dedupLoop, if_neg hc, ih seen a]
        constructor
        · rintro ⟨ht, hm, hns⟩
          exact ⟨ht, List.mem_cons_of_mem _ hm, hns⟩
        · rintro ⟨ht, hm, hns⟩
          rcases List.mem_cons.mp hm with rfl | hm
          · rcases not_and_or.mp hc with h | h
            · exact absurd ht h
            · exact absurd (not_not.mp h) hns
          · exact ⟨ht, hm, hns⟩

theorem dedupLoop_nodup (ls : List JVal) : ∀ seen : List JVal,
    (dedupLoop ls seen []).Nodup := by
  induction ls with
  | nil => intro seen; simp [dedupLoop]
  | cons l ls ih =>
      intro seen
      by_cases hc : pyTruthy l = true ∧ l ∉ seen
      · rw [dedupLoop, if_pos hc, dedupLoop_acc ls (l :: seen) ([] ++ [l])]
        simp only [List.nil_append, List.cons_append]
        rw [List.nodup_cons]
        refine ⟨fun hmem => ?_, ih (l :: seen)⟩
        rcases (dedupLoop_mem ls (l :: seen) l).mp hmem with ⟨_, _, hns⟩
        exact hns (List.mem_cons_self _ _)
      · rw [dedupLoop, if_neg hc]
        exact ih seen

theorem dedupLoop_sublist (ls : List JVal) : ∀ seen : List JVal,
    List.Sublist (dedupLoop ls seen []) ls := by
  induction ls with
  | nil => intro seen; simp [dedupLoop]
  | cons l ls ih =>
      intro seen
      by_cases hc : pyTruthy l = true ∧ l ∉ seen
      · rw [dedupLoop, if_pos hc, dedupLoop_acc ls (l :: seen) ([] ++ [l])]
        simpa using List.Sublist.cons₂ l (ih (l :: seen))
      · rw [dedupLoop, if_neg hc]
        exact (ih seen).cons l

/-- Model of `str.replace(' ', '-')` on component and type names
(process_jira_bug.py:396, 403). -/
def pyDashSpaces (s : String) : String :=
  String.mk (s.toList.map (fun c => if c = Char.ofNat 32 then Char.ofNat 45 else c))

/-- The label list submitted by `JiraGitHubProcessor.create_github_issue`
(process_jira_bug.py:266-409): the field extraction preceding the body
(any of which can raise and abort the run before submission, e.g. a
missing `summary` subscripted at line 328), then `issue_labels` built at
lines 388-403: the fixed pair, the lower-cased priority, one
`component:` label per component, the record's own labels extended
verbatim, and a `type:` label when the type is not "Bug".  No
deduplication is performed. -/
def createGithubIssueLabels (fields : List (String × JVal)) :
    Except Unit (List JVal) := do
  let bugType ← dictGetAttr fields "issuetype" "name" "Bug"
  let priority ← dictGetAttr fields "priority" "name" "Medium"
  let _status ← dictGetAttr fields "status" "name" "Unknown"
  let _reporter ← dictGetAttr fields "reporter" "displayName" "Unknown"
  let _assignee ← dictGetAttr fields "assignee" "displayName" "Unassigned"
  let _description ← match (List.lookup "description" fields).getD (.str "") with
    | .obj fs => extractTextFromADF (.obj fs)
    | .null => Except.ok "No description provided"
    | v => Except.ok (pyStr v)
  let componentNames ← namesOf (List.lookup "components" fields)
  let componentStrs ← if componentNames.isEmpty then Except.ok []
    else match listAllStrings componentNames with
      | some ss => Except.ok ss
      | none => Except.error ()
  let _labelsText ← labelsText (List.lookup "labels" fields)
  let versionNames ← namesOf (List.lookup "versions" fields)
  let _versionsText ← joinedOrDefault versionNames "Not specified"
  let fixNames ← namesOf (List.lookup "fixVersions" fields)
  let _fixText ← joinedOrDefault fixNames "Not specified"
  let _environment ← match (List.lookup "environment" fields).getD (.str "") with
    | .obj fs => extractTextFromADF (.obj fs)
    | v => Except.ok (if pyTruthy v then pyStr v else "Not specified")
  let _summary ← match List.lookup "summary" fields with
    | some v => Except.ok v
    | none => Except.error ()
  let priorityS ← match priority with
    | .str s => Except.ok s
    | _ => Except.error ()
  let jiraLabels ← match (List.lookup "labels" fields).getD (.arr []) with
    | .arr items => Except.ok items
    | .str s => Except.ok (s.toList.map (fun c => JVal.str c.toString))
    | .obj fs => Except.ok (fs.map (fun kv => JVal.str kv.1))
    | _ => Except.error ()
  let bugTypeS ← match bugType with
    | .str s => Except.ok s
    | _ => Except.error ()
  Except.ok ([JVal.str "jira-bug", JVal.str "automated", JVal.str (pyLower priorityS)] ++
    componentStrs.map (fun c => JVal.str ("component:" ++ pyDashSpaces (pyLower c))) ++
    jiraLabels ++
    (if pyLower bugTypeS ≠ "bug"
      then [JVal.str ("type:" ++ pyDashSpaces (pyLower bugTypeS))] else []))

/-- C7 (counterexample).  The label list the processor submits is not
deduplicated: a record whose Jira labels contain "automated" produces
"automated" twice in the submitted set. -/
theorem label_dedup_cx :
    createGithubIssueLabels [("summary", JVal.str "S"),
      ("labels", JVal.arr [JVal.str "automated"])] =
      .ok [JVal.str "jira-bug", JVal.str "automated", JVal.str "medium",
        JVal.str "automated"] ∧
    ¬ ([JVal.str "jira-bug", JVal.str "automated", JVal.str "medium",
        JVal.str "automated"] : List JVal).Nodup :=
  ⟨rfl, by decide⟩

/-- C7 (amended).  The vulnerability-issue label builder
`build_issue_labels` does satisfy the claim: its result has no duplicate
label, is a subsequence of the candidate list (first occurrence wins,
order preserved), and contains exactly the truthy candidates — empty or
null candidates are dropped, never inserted.  The Jira processor's
`create_github_issue`, by contrast, performs no deduplication (see the
counterexample). -/
theorem label_dedup_amended (cvss : JVal) (extraLabels : List JVal) :
    (buildIssueLabels cvss extraLabels).Nodup ∧
    List.Sublist (buildIssueLabels cvss extraLabels)
      (extraLabels ++ [JVal.str "vulnerability", JVal.str (severityLabel cvss)]) ∧
    (∀ a : JVal, a ∈ buildIssueLabels cvss extraLabels ↔
      (pyTruthy a = true ∧
        a ∈ extraLabels ++ [JVal.str "vulnerability", JVal.str (severityLabel cvss)])) := by
  refine ⟨dedupLoop_nodup _ _, dedupLoop_sublist _ _, ?_⟩
  intro a
  unfold buildIssueLabels
  rw [dedupLoop_mem]
  simp

/-- C8 (counterexample).  The derived label for a 9.5 score is
"severity:critical", not the claim's "critical". -/
theorem severity_label_names_cx :
    severityLabel (JVal.str "9.5") = "severity:critical" ∧
    severityLabel (JVal.str "9.5") ≠ "critical" :=
  ⟨rfl, by decide⟩

/-- C8 (amended).  Severity derivation is a pure total function of the
score: ≥ 9.0 gives "severity:critical", ≥ 7.0 "severity:high", ≥ 4.0
"severity:medium", lower scores and non-numeric or missing scores
("N/A", None, "") give "severity:low"; every input yields one of the
four labels (the function never fails). -/
theorem severity_label_thresholds :
    severityLabel (JVal.str "9.5") = "severity:critical" ∧
    severityLabel (JVal.str "7.0") = "severity:high" ∧
    severityLabel (JVal.str "4.0") = "severity:medium" ∧
    severityLabel (JVal.str "2.0") = "severity:low" ∧
    severityLabel (JVal.str "N/A") = "severity:low" ∧
    severityLabel JVal.null = "severity:low" ∧
    severityLabel (JVal.str "") = "severity:low" ∧
    (∀ v : JVal, severityLabel v = "severity:critical" ∨
      severityLabel v = "severity:high" ∨ severityLabel v = "severity:medium" ∨
      severityLabel v = "severity:low") := by
  refine ⟨rfl, rfl, rfl, rfl, rfl, rfl, rfl, ?_⟩
  intro v
  simp only [severityLabel]
  repeat' split
  all_goals first
    | exact Or.inl rfl
    | exact Or.inr (Or.inl rfl)
    | exact Or.inr (Or.inr (Or.inl rfl))
    | exact Or.inr (Or.inr (Or.inr rfl))

/-! ### The orchestration run and its failure policy

`JiraGitHubProcessor.run` (process_jira_bug.py:38-78) wraps the five
steps in one `try` returning 1 on any exception and 0 otherwise.  Each
remote call's outcome is abstracted as a `StepOutcome`: it succeeded,
it failed with an HTTP error response (`urllib.error.HTTPError`), or it
failed with any other exception (e.g. `URLError` on a network timeout).
Each step function encodes which outcomes that step's own handlers
absorb; `runModel` sequences them exactly as `run` does and returns the
exit code together with whether issue creation and the back-link write
were reached. -/

inductive StepOutcome where
  | success
  | httpError
  | exn
deriving DecidableEq

/-- `fetch_bug_from_jira` (process_jira_bug.py:80-105): an HTTP error is
logged and re-raised (line 105), anything else propagates. -/
def fetchBugStep : StepOutcome → Except Unit Unit
  | .success => .ok ()
  | .httpError => .error ()
  | .exn => .error ()

/-- `process_attachments` (process_jira_bug.py:107-151): every network
or I/O failure happens inside the per-attachment `try` and is absorbed
(lines 147-149); only a failure outside the loop (e.g. a malformed
`fields`) propagates. -/
def processAttachmentsStep : StepOutcome → Except Unit Unit
  | .success => .ok ()
  | .httpError => .ok ()
  | .exn => .error ()

/-- `upload_to_github_release` (process_jira_bug.py:165-217): both an
`HTTPError` and any other exception are caught (lines 205-217), and
`_upload_asset` likewise absorbs everything (lines 248-264). -/
def uploadReleaseStep : StepOutcome → Except Unit Unit
  | _ => .ok ()

/-- `create_github_issue` (process_jira_bug.py:420-431): an HTTP error
is logged and re-raised (line 431), anything else propagates. -/
def createIssueStep : StepOutcome → Except Unit Unit
  | .success => .ok ()
  | .httpError => .error ()
  | .exn => .error ()

/-- `update_jira` (process_jira_bug.py:538-543): only
`urllib.error.HTTPError` is caught (line 542); any other failure (e.g.
a network timeout raising `URLError`) propagates into `run`'s handler. -/
def updateJiraStep : StepOutcome → Except Unit Unit
  | .success => .ok ()
  | .httpError => .ok ()
  | .exn => .error ()

/-- Model of `run` (process_jira_bug.py:38-78).  Returns
`(exit code, issue creation reached, back-link write reached)`. -/
def runModel (fetchO attachO uploadO createO commentO : StepOutcome) :
    Int × Bool × Bool :=
  match fetchBugStep fetchO with
  | .error _ => (1, false, false)
  | .ok _ =>
      match processAttachmentsStep attachO with
      | .error _ => (1, false, false)
      | .ok _ =>
          match uploadReleaseStep uploadO with
          | .error _ => (1, false, false)
          | .ok _ =>
              match createIssueStep createO with
              | .error _ => (1, true, false)
              | .ok _ =>
                  match updateJiraStep commentO with
                  | .error _ => (1, true, true)
                  | .ok _ => (0, true, true)

/-- C9 (counterexample).  A back-link write failure that is not an HTTP
error response (e.g. a network timeout raising `URLError`) is not
swallowed by `update_jira` — it propagates into `run`'s handler and the
run exits 1, although the issue was created. -/
theorem backlink_failure_exit_cx :
    runModel .success .success .success .success .exn = (1, true, true) ∧
    (1 : Int) ≠ 0 :=
  ⟨rfl, by decide⟩

/-- C9 (amended).  If issue creation fails (HTTP error or otherwise)
the run exits 1 and the back-link write is never attempted; if creation
succeeds and the back-link write fails with an HTTP error response,
that failure is swallowed and the run still exits 0; a non-HTTP
back-link failure, however, propagates and the run exits 1. -/
theorem orchestration_failure_policy (createO commentO : StepOutcome) :
    (createO ≠ .success →
      runModel .success .success .success createO commentO = (1, true, false)) ∧
    runModel .success .success .success .success .httpError = (0, true, true) ∧
    runModel .success .success .success .success .exn = (1, true, true) := by
  refine ⟨?_, rfl, rfl⟩
  intro h
  cases createO with
  | success => exact absurd rfl h
  | httpError => rfl
  | exn => rfl

/-- Witness for C9 (amended): a failed creation call aborts without a
back-link attempt; a swallowed HTTP back-link failure still exits 0. -/
theorem orchestration_failure_policy_witness :
    StepOutcome.httpError ≠ StepOutcome.success ∧
    runModel .success .success .success .httpError .success = (1, true, false) ∧
    runModel .success .success .success .success .httpError = (0, true, true) :=
  ⟨by decide,
   (orchestration_failure_policy .httpError .success).1 (by decide),
   (orchestration_failure_policy .httpError .success).2.1⟩

/-! ### The release cleanup utility -/

/-- What the cleanup reads from each listed release
(cleanup_attachments.py:50, 66-67). -/
structure Release where
  tag_name : String
  id : Int
deriving DecidableEq

/-- Outcome of the release-listing call. -/
inductive ListOutcome where
  | ok (releases : List Release)
  | httpError
  | exn

/-- The deletion loop (cleanup_attachments.py:64-81): a successful
DELETE increments the count, an HTTP error is logged and absorbed
(lines 80-81), any other exception propagates out of the function. -/
def deleteLoop (deleteResult : Int → StepOutcome) :
    List Release → Nat → Except Unit Nat
  | [], n => .ok n
  | r :: rs, n =>
      match deleteResult r.id with
      | .success => deleteLoop deleteResult rs (n + 1)
      | .httpError => deleteLoop deleteResult rs n
      | .exn => .error ()

/-- Model of `delete_releases_for_bug` (cleanup_attachments.py:14-88):
missing or empty configuration returns 1; a repository string that does
not split into exactly owner/name raises; a listing HTTP error returns
1 (any other listing failure raises); zero matching releases returns 0;
otherwise each matching release is deleted via `deleteLoop` and the
function returns 0. -/
def deleteReleasesForBug (token repo : Option String) (bugKey : String)
    (listResult : ListOutcome) (deleteResult : Int → StepOutcome) :
    Except Unit Int :=
  match token, repo with
  | some t, some r =>
      if t = "" ∨ r = "" then .ok 1
      else
        match pySplit r (Char.ofNat 47) with
        | [_, _] =>
            match listResult with
            | .httpError => .ok 1
            | .exn => .error ()
            | .ok releases =>
                let matching := releases.filter
                  (fun rl => pyStartsWith rl.tag_name ("jira-" ++ pyLower bugKey ++ "-"))
                if matching.isEmpty then .ok 0
                else
                  match deleteLoop deleteResult matching 0 with
                  | .ok _ => .ok 0
                  | .error e => .error e
        | _ => .error ()
  | _, _ => .ok 1

/-- C10 (counterexample).  A deletion failure that is not an HTTP error
response (e.g. a network timeout) is not absorbed: the function raises
instead of returning 0, although the listing succeeded. -/
theorem cleanup_exit_code_cx :
    deleteReleasesForBug (some "tok") (some "o/r") "BUG-1"
      (.ok [{ tag_name := "jira-bug-1-99", id := 7 }]) (fun _ => .exn) =
      .error () :=
  rfl

/-- C10 (amended).  The cleanup returns 0 whenever listing succeeds and
every attempted deletion either succeeds or fails with an HTTP error
response (zero matches included; HTTP deletion failures are logged and
absorbed); it returns 1 when required configuration is missing or the
listing itself fails with an HTTP error.  A non-HTTP deletion or
listing failure raises instead of returning. -/
theorem cleanup_exit_code (t r key : String) (rels : List Release)
    (del : Int → StepOutcome)
    (ht : t ≠ "") (hr : r ≠ "")
    (hsplit : (pySplit r (Char.ofNat 47)).length = 2)
    (hdel : ∀ i, del i ≠ .exn) :
    deleteReleasesForBug (some t) (some r) key (.ok rels) del = .ok 0 ∧
    deleteReleasesForBug (some t) (some r) key .httpError del = .ok 1 ∧
    deleteReleasesForBug none (some r) key (.ok rels) del = .ok 1 ∧
    deleteReleasesForBug (some t) none key (.ok rels) del = .ok 1 := by
  obtain ⟨a, b, hab⟩ := List.length_eq_two.mp hsplit
  have hloop : ∀ (ms : List Release) (n : Nat), ∃ m, deleteLoop del ms n = .ok m := by
    intro ms
    induction ms with
    | nil => intro n; exact ⟨n, rfl⟩
    | cons rl ms ih =>
        intro n
        cases hd : del rl.id with
        | success => simpa [deleteLoop, hd] using ih (n + 1)
        | httpError => simpa [deleteLoop, hd] using ih n
        | exn => exact absurd hd (hdel rl.id)
  refine ⟨?_, ?_, rfl, rfl⟩
  · simp only [deleteReleasesForBug]
    rw [if_neg (by simp [ht, hr]), hab]
    by_cases hm : (rels.filter
        (fun rl => pyStartsWith rl.tag_name ("jira-" ++ pyLower key ++ "-"))).isEmpty
    · simp [hm]
    · obtain ⟨m, hm2⟩ := hloop (rels.filter
        (fun rl => pyStartsWith rl.tag_name ("jira-" ++ pyLower key ++ "-"))) 0
      simp [hm, hm2]
  · simp only [deleteReleasesForBug]
    rw [if_neg (by simp [ht, hr]), hab]

/-- Witness for C10 (amended): with valid configuration, one matching
release and every DELETE failing with an HTTP error, the run still
returns 0; a listing HTTP error returns 1. -/
theorem cleanup_exit_code_witness :
    ("tok" : String) ≠ "" ∧ ("o/r" : String) ≠ "" ∧
    (pySplit "o/r" (Char.ofNat 47)).length = 2 ∧
    deleteReleasesForBug (some "tok") (some "o/r") "BUG-1"
      (.ok [{ tag_name := "jira-bug-1-99", id := 7 }])
      (fun _ => .httpError) = .ok 0 ∧
    deleteReleasesForBug (some "tok") (some "o/r") "BUG-1" .httpError
      (fun _ => .httpError) = .ok 1 :=
  ⟨by decide, by decide, rfl,
   (cleanup_exit_code "tok" "o/r" "BUG-1" [{ tag_name := "jira-bug-1-99", id := 7 }]
     (fun _ => .httpError) (by decide) (by decide) rfl
     (fun _ h => StepOutcome.noConfusion h)).1,
   (cleanup_exit_code "tok" "o/r" "BUG-1" [{ tag_name := "jira-bug-1-99", id := 7 }]
     (fun _ => .httpError) (by decide) (by decide) rfl
     (fun _ h => StepOutcome.noConfusion h)).2.1⟩

end JiraGitHub
